import Mathlib

/-!
A verification development for the `anchor-litesvm` / `litesvm-utils` crates.

The Rust sources are shallowly embedded as executable Lean definitions:

* `sha256` embeds the SHA-256 digest used through the `sha2` crate
  (FIPS 180-4, operating on byte lists, 32-bit words as `Nat % 2^32`);
* `calculate_anchor_discriminator` and `build_anchor_instruction` embed
  `crates/anchor-litesvm/src/instruction.rs`;
* `Program` / `InstructionBuilder` embed `crates/anchor-litesvm/src/program.rs`;
* `TransactionResult` and its assertion helpers, together with
  `send_instruction` / `send_instructions` / `send_transaction_result`,
  embed `crates/litesvm-utils/src/transaction.rs` (panics are modelled as
  the `Except.error` branch carrying the panic message, the external
  LiteSVM oracle as an explicit state-passing function parameter);
* `derive_pda` embeds `crates/litesvm-utils/src/test_helpers.rs` together
  with the `Pubkey::find_program_address` search of the Solana SDK it
  delegates to (the on-curve test is an abstract `Bool`-valued parameter,
  the `expect` panic is modelled as `Option.none`).
-/

namespace AnchorLitesvm

/-! ## Bytes, 32-bit words, SHA-256 (the `sha2` crate dependency) -/

/-- Truncate to a 32-bit word. -/
def w32 (n : Nat) : Nat := n % 4294967296

/-- 32-bit modular addition. -/
def add32 (a b : Nat) : Nat := (a + b) % 4294967296

/-- Rotate a 32-bit word right by `k` bits. -/
def rotr (x k : Nat) : Nat := w32 ((x >>> k) ||| (x <<< (32 - k)))

/-- Bitwise complement of a 32-bit word. -/
def not32 (x : Nat) : Nat := 4294967295 ^^^ x

/-- Big-endian bytes of a 32-bit word. -/
def be32 (x : Nat) : List Nat :=
  [(x >>> 24) &&& 255, (x >>> 16) &&& 255, (x >>> 8) &&& 255, x &&& 255]

/-- Big-endian bytes of a 64-bit word. -/
def be64 (x : Nat) : List Nat :=
  [(x >>> 56) &&& 255, (x >>> 48) &&& 255, (x >>> 40) &&& 255, (x >>> 32) &&& 255,
   (x >>> 24) &&& 255, (x >>> 16) &&& 255, (x >>> 8) &&& 255, x &&& 255]

/-- The eight working registers / hash state of SHA-256. -/
structure Sha2State where
  a : Nat
  b : Nat
  c : Nat
  d : Nat
  e : Nat
  f : Nat
  g : Nat
  h : Nat

/-- Initial SHA-256 hash values (FIPS 180-4 §5.3.3). -/
def initH : Sha2State :=
  ⟨1779033703, 3144134277, 1013904242, 2773480762,
   1359893119, 2600822924, 528734635, 1541459225⟩

/-- SHA-256 round constants (FIPS 180-4 §4.2.2). -/
def sha256K : List Nat :=
  [1116352408, 1899447441, 3049323471, 3921009573, 961987163,
   1508970993, 2453635748, 2870763221, 3624381080, 310598401,
   607225278, 1426881987, 1925078388, 2162078206, 2614888103,
   3248222580, 3835390401, 4022224774, 264347078, 604807628,
   770255983, 1249150122, 1555081692, 1996064986, 2554220882,
   2821834349, 2952996808, 3210313671, 3336571891, 3584528711,
   113926993, 338241895, 666307205, 773529912, 1294757372,
   1396182291, 1695183700, 1986661051, 2177026350, 2456956037,
   2730485921, 2820302411, 3259730800, 3345764771, 3516065817,
   3600352804, 4094571909, 275423344, 430227734, 506948616,
   659060556, 883997877, 958139571, 1322822218, 1537002063,
   1747873779, 1955562222, 2024104815, 2227730452, 2361852424,
   2428436474, 2756734187, 3204031479, 3329325298]

/-- Small sigma 0 message-schedule function. -/
def ssig0 (x : Nat) : Nat := (rotr x 7) ^^^ (rotr x 18) ^^^ (x >>> 3)

/-- Small sigma 1 message-schedule function. -/
def ssig1 (x : Nat) : Nat := (rotr x 17) ^^^ (rotr x 19) ^^^ (x >>> 10)

/-- Group a byte list into big-endian 32-bit words, four bytes per word. -/
def toWordsBE : List Nat → List Nat
  | b0 :: b1 :: b2 :: b3 :: rest =>
      ((b0 <<< 24) ||| (b1 <<< 16) ||| (b2 <<< 8) ||| b3) :: toWordsBE rest
  | _ => []

/-- Extend the 16-word message schedule by `n` further words
(FIPS 180-4 §6.2.2 step 1). -/
def extendW : List Nat → Nat → List Nat
  | ws, 0 => ws
  | ws, n + 1 =>
      let len := ws.length
      let wi := (ssig1 (ws.getD (len - 2) 0) + ws.getD (len - 7) 0 +
                 ssig0 (ws.getD (len - 15) 0) + ws.getD (len - 16) 0) % 4294967296
      extendW (ws ++ [wi]) n

/-- One SHA-256 compression round (FIPS 180-4 §6.2.2 step 3). -/
def sha2Round (st : Sha2State) (k : Nat) (w : Nat) : Sha2State :=
  let s1 := (rotr st.e 6) ^^^ (rotr st.e 11) ^^^ (rotr st.e 25)
  let ch := (st.e &&& st.f) ^^^ ((not32 st.e) &&& st.g)
  let t1 := (st.h + s1 + ch + k + w) % 4294967296
  let s0 := (rotr st.a 2) ^^^ (rotr st.a 13) ^^^ (rotr st.a 22)
  let mj := (st.a &&& st.b) ^^^ (st.a &&& st.c) ^^^ (st.b &&& st.c)
  let t2 := (s0 + mj) % 4294967296
  ⟨add32 t1 t2, st.a, st.b, st.c, add32 st.d t1, st.e, st.f, st.g⟩

/-- Compress a single 64-byte block into the running hash state. -/
def compressBlock (st : Sha2State) (block : List Nat) : Sha2State :=
  let ws := extendW (toWordsBE block) 48
  let fin := (sha256K.zip ws).foldl (fun s kw => sha2Round s kw.1 kw.2) st
  ⟨add32 st.a fin.a, add32 st.b fin.b, add32 st.c fin.c, add32 st.d fin.d,
   add32 st.e fin.e, add32 st.f fin.f, add32 st.g fin.g, add32 st.h fin.h⟩

/-- SHA-256 padding: a `0x80` byte, zeros to 56 mod 64, then the bit length
in 64-bit big-endian (FIPS 180-4 §5.1.1). -/
def padMsg (m : List Nat) : List Nat :=
  let len := m.length
  m ++ [128] ++ List.replicate ((119 - len % 64) % 64) 0 ++ be64 ((8 * len) % 18446744073709551616)

/-- Split a byte list into successive 64-byte blocks (fuel-driven so the
definition reduces inside the kernel). -/
def chunks64Go : Nat → List Nat → List (List Nat)
  | 0, _ => []
  | _, [] => []
  | fuel + 1, l => l.take 64 :: chunks64Go fuel (l.drop 64)

/-- The SHA-256 digest of a byte list: 32 bytes. -/
def sha256 (m : List Nat) : List Nat :=
  let p := padMsg m
  let st := (chunks64Go p.length p).foldl compressBlock initH
  be32 st.a ++ be32 st.b ++ be32 st.c ++ be32 st.d ++
  be32 st.e ++ be32 st.f ++ be32 st.g ++ be32 st.h

/-- The digest always has 32 bytes, whatever the message. -/
theorem sha256_length (m : List Nat) : (sha256 m).length = 32 := by
  simp [sha256, be32]

/-! ## UTF-8 encoding of strings (what `hasher.update` sees in Rust) -/

/-- UTF-8 bytes of a single Unicode code point. -/
def utf8Char (c : Nat) : List Nat :=
  if c < 128 then [c]
  else if c < 2048 then [192 ||| (c >>> 6), 128 ||| (c &&& 63)]
  else if c < 65536 then
    [224 ||| (c >>> 12), 128 ||| ((c >>> 6) &&& 63), 128 ||| (c &&& 63)]
  else
    [240 ||| (c >>> 18), 128 ||| ((c >>> 12) &&& 63), 128 ||| ((c >>> 6) &&& 63),
     128 ||| (c &&& 63)]

/-- UTF-8 bytes of a string. -/
def utf8 (s : String) : List Nat :=
  s.data.foldr (fun c acc => utf8Char c.toNat ++ acc) []

/-! ## Solana base types (`solana_program`), as byte-level values -/

/-- A 32-byte address. -/
abbrev Pubkey := List Nat

/-- An account reference: address plus signer / writable flags
(`solana_program::instruction::AccountMeta`). -/
structure AccountMeta where
  pubkey : Pubkey
  is_signer : Bool
  is_writable : Bool
deriving DecidableEq

/-- An instruction: program target, ordered account list, opaque payload
(`solana_program::instruction::Instruction`). -/
structure Instruction where
  program_id : Pubkey
  accounts : List AccountMeta
  data : List Nat
deriving DecidableEq

/-! ## `crates/anchor-litesvm/src/instruction.rs` -/

/-- Rust `calculate_anchor_discriminator`: the first 8 bytes of
`sha256("global:<instruction_name>")`. -/
def calculate_anchor_discriminator (instruction_name : String) : List Nat :=
  let hash := sha256 (utf8 ("global:" ++ instruction_name))
  hash.take 8

/-- Rust `build_anchor_instruction`: discriminator, then the Borsh serialization of
the arguments.  The `AnchorSerialize` impl of the argument type is the
function parameter `ser`, returning the bytes it would append to the buffer,
or a serialization error. -/
def build_anchor_instruction {α : Type} (ser : α → Except String (List Nat))
    (program_id : Pubkey) (instruction_name : String)
    (accounts : List AccountMeta) (args : α) : Except String Instruction :=
  let discriminator := calculate_anchor_discriminator instruction_name
  match ser args with
  | Except.error e => Except.error e
  | Except.ok bytes =>
      Except.ok { program_id := program_id, accounts := accounts,
                  data := discriminator ++ bytes }

/-- Modelled from the spec: `discriminator(namespace, name)`, the first 8
bytes of the SHA-256 hash of the UTF-8 bytes of `"<namespace>:<name>"`, with
the namespace an explicit parameter. -/
def discriminator_of_spec (ns name : String) : List Nat :=
  (sha256 (utf8 (ns ++ ":" ++ name))).take 8

/-! ## `crates/anchor-litesvm/src/program.rs` -/

/-- The lightweight `Program` wrapper. -/
structure Program where
  program_id : Pubkey

/-- Rust `Program::new`. -/
def Program.new (program_id : Pubkey) : Program := ⟨program_id⟩

/-- The fluent `InstructionBuilder` state. -/
structure InstructionBuilder where
  program_id : Pubkey
  accounts : List AccountMeta
  data : List Nat

/-- Rust `Program::accounts`: starts a builder from the metas produced by the
supplied `ToAccountMetas` value (the metas list is the parameter, standing
for `accounts.to_account_metas(None)`), with empty data. -/
def Program.accounts (self : Program) (metas : List AccountMeta) : InstructionBuilder :=
  { program_id := self.program_id, accounts := metas, data := [] }

/-- Rust `InstructionBuilder::args`: replaces the builder data with the payload
produced by the argument value's `InstructionData::data()` (the byte list
parameter). -/
def InstructionBuilder.args (self : InstructionBuilder) (payload : List Nat) :
    InstructionBuilder :=
  { self with data := payload }

/-- Rust `anchor_lang::InstructionData::data()` (provided method of the external
trait): the 8-byte instruction discriminator followed by the
`AnchorSerialize` encoding of the value. -/
def instructionDataBytes (discriminator serialized : List Nat) : List Nat :=
  discriminator ++ serialized

/-- Rust `InstructionBuilder::instruction`: rejects an empty payload, otherwise
produces the instruction. -/
def InstructionBuilder.instruction (self : InstructionBuilder) :
    Except String Instruction :=
  if self.data.isEmpty then
    Except.error "No instruction data provided. Call .args() before .instruction()"
  else
    Except.ok { program_id := self.program_id, accounts := self.accounts,
                data := self.data }

/-! ## Substring search (Rust `str::contains`) -/

/-- Whether `p` is a leading segment of `l` (character lists). -/
def leadsB : List Char → List Char → Bool
  | [], _ => true
  | _ :: _, [] => false
  | c :: cs, d :: ds => (c == d) && leadsB cs ds

/-- Whether `pat` occurs contiguously inside `hay` (character lists). -/
def subStrB : List Char → List Char → Bool
  | [], pat => pat.isEmpty
  | c :: t, pat => leadsB pat (c :: t) || subStrB t pat

/-- Rust `str::contains` with a string pattern: substring search. -/
def strContains (hay pat : String) : Bool := subStrB hay.data pat.data

/-! ## `crates/litesvm-utils/src/transaction.rs` -/

/-- The typed error of the transaction helpers. -/
inductive TransactionError where
  | ExecutionFailed (msg : String)
  | BuildError (msg : String)
  | AssertionFailed (msg : String)
deriving DecidableEq

/-- Rust `litesvm::types::TransactionMetadata`, restricted to the fields this
crate reads: the log lines and the consumed compute units. -/
structure TransactionMetadata where
  logs : List String
  compute_units_consumed : Nat
deriving DecidableEq

/-- The `TransactionResult` wrapper. -/
structure TransactionResult where
  inner : TransactionMetadata
  instruction_name : Option String
  error : Option String
deriving DecidableEq

/-- Rust `TransactionResult::new`. -/
def TransactionResult.new (result : TransactionMetadata)
    (instruction_name : Option String) : TransactionResult :=
  { inner := result, instruction_name := instruction_name, error := none }

/-- Rust `TransactionResult::new_failed`. -/
def TransactionResult.new_failed (error : String) (result : TransactionMetadata)
    (instruction_name : Option String) : TransactionResult :=
  { inner := result, instruction_name := instruction_name, error := some error }

/-- Rust `TransactionResult::is_success`. -/
def TransactionResult.is_success (self : TransactionResult) : Bool :=
  self.error.isNone

/-- Rust `TransactionResult::logs`. -/
def TransactionResult.logs (self : TransactionResult) : List String :=
  self.inner.logs

/-- Rust `self.logs().join("\n")`. -/
def TransactionResult.joinedLogs (self : TransactionResult) : String :=
  String.intercalate "\n" self.inner.logs

/-- Rust `TransactionResult::has_log`. -/
def TransactionResult.has_log (self : TransactionResult) (message : String) : Bool :=
  self.inner.logs.any (fun log => strContains log message)

/-- Rust `TransactionResult::find_log`. -/
def TransactionResult.find_log (self : TransactionResult) (pattern : String) :
    Option String :=
  self.inner.logs.find? (fun log => strContains log pattern)

/-- Rust `TransactionResult::compute_units`. -/
def TransactionResult.compute_units (self : TransactionResult) : Nat :=
  self.inner.compute_units_consumed

/-- The ASCII apostrophe used by the panic message of `assert_error`. -/
def apos : String := String.singleton (Char.ofNat 39)

/-- Rust `TransactionResult::assert_error`: `Except.ok` models falling through the
assertion, `Except.error` models the panic, carrying the panic message. -/
def TransactionResult.assert_error (self : TransactionResult)
    (expected_error : String) : Except String Unit :=
  match self.error with
  | some error =>
      if strContains error expected_error then Except.ok ()
      else
        Except.error
          ("Transaction failed with unexpected error.\nExpected substring: " ++
            expected_error ++ "\nActual error: " ++ error ++ "\nLogs:\n" ++
            self.joinedLogs)
  | none =>
      Except.error
        ("Expected transaction to fail with error containing " ++ apos ++
          expected_error ++ apos ++ ", but it succeeded.\nLogs:\n" ++
          self.joinedLogs)

/-- Rust `format!("{:x}", n)` digits for a nonzero value (fuel-driven). -/
def hexGo : Nat → Nat → List Char
  | 0, _ => []
  | _, 0 => []
  | fuel + 1, n =>
      hexGo fuel (n / 16) ++
        [Char.ofNat (if n % 16 < 10 then 48 + n % 16 else 87 + n % 16)]

/-- Rust `format!("{:x}", n)`: lowercase hexadecimal, no leading zeros. -/
def hexLower (n : Nat) : String :=
  if n = 0 then "0" else ⟨hexGo n n⟩

/-- Rust `TransactionResult::assert_error_code`: `assert_error` against
`format!("custom program error: 0x{:x}", error_code)`. -/
def TransactionResult.assert_error_code (self : TransactionResult)
    (error_code : Nat) : Except String Unit :=
  let error_code_str := "custom program error: 0x" ++ hexLower error_code
  self.assert_error error_code_str

/-! ## Transaction submission helpers (`TransactionHelpers` impl for `LiteSVM`)

The LiteSVM oracle is external: it is modelled as an explicit state type `σ`
together with a state-passing submission function
`sendTx : σ → Transaction → σ × Except (FailedTransactionMetadata ε) TransactionMetadata`
and a blockhash query `latestBlockhash : σ → Nat`; the Rust
`format!("{:?}", failed.err)` rendering of the oracle error type `ε` is the
parameter `fmtDebug`. -/

/-- Rust `solana_sdk::signature::Keypair`, restricted to what the helpers read:
its public key. -/
structure Keypair where
  pubkey : Pubkey
deriving DecidableEq

/-- Rust `solana_sdk::transaction::Transaction`, as assembled by
`Transaction::new_signed_with_payer`: the instruction list, the designated
fee payer, the signer keys, and the recent blockhash. -/
structure Transaction where
  instructions : List Instruction
  payer : Option Pubkey
  signer_pubkeys : List Pubkey
  recent_blockhash : Nat

/-- Rust `Transaction::new_signed_with_payer`. -/
def Transaction.new_signed_with_payer (instructions : List Instruction)
    (payer : Option Pubkey) (signers : List Keypair) (recent_blockhash : Nat) :
    Transaction :=
  { instructions := instructions, payer := payer,
    signer_pubkeys := signers.map Keypair.pubkey,
    recent_blockhash := recent_blockhash }

/-- Rust `litesvm::types::FailedTransactionMetadata`: the oracle error plus the
metadata of the failed execution. -/
structure FailedTransactionMetadata (ε : Type) where
  err : ε
  meta : TransactionMetadata

/-- Rust `TransactionHelpers::send_transaction_result`: wraps the oracle outcome;
both the success and the failure of the oracle become `Except.ok` carrying a
`TransactionResult`. -/
def send_transaction_result {σ ε : Type}
    (sendTx : σ → Transaction → σ × Except (FailedTransactionMetadata ε) TransactionMetadata)
    (fmtDebug : ε → String) (svm : σ) (transaction : Transaction) :
    σ × Except TransactionError TransactionResult :=
  match sendTx svm transaction with
  | (svm2, Except.ok result) => (svm2, Except.ok (TransactionResult.new result none))
  | (svm2, Except.error failed) =>
      (svm2, Except.ok (TransactionResult.new_failed (fmtDebug failed.err) failed.meta none))

/-- Rust `TransactionHelpers::send_instruction`. -/
def send_instruction {σ ε : Type}
    (sendTx : σ → Transaction → σ × Except (FailedTransactionMetadata ε) TransactionMetadata)
    (fmtDebug : ε → String) (latestBlockhash : σ → Nat) (svm : σ)
    (instruction : Instruction) (signers : List Keypair) :
    σ × Except TransactionError TransactionResult :=
  match signers with
  | [] => (svm, Except.error (TransactionError.BuildError "No signers provided"))
  | s0 :: _ =>
      let tx := Transaction.new_signed_with_payer [instruction] (some s0.pubkey)
        signers (latestBlockhash svm)
      send_transaction_result sendTx fmtDebug svm tx

/-- Rust `TransactionHelpers::send_instructions`. -/
def send_instructions {σ ε : Type}
    (sendTx : σ → Transaction → σ × Except (FailedTransactionMetadata ε) TransactionMetadata)
    (fmtDebug : ε → String) (latestBlockhash : σ → Nat) (svm : σ)
    (instructions : List Instruction) (signers : List Keypair) :
    σ × Except TransactionError TransactionResult :=
  match signers with
  | [] => (svm, Except.error (TransactionError.BuildError "No signers provided"))
  | s0 :: _ =>
      let tx := Transaction.new_signed_with_payer instructions (some s0.pubkey)
        signers (latestBlockhash svm)
      send_transaction_result sendTx fmtDebug svm tx

/-! ## PDA derivation (`TestHelpers::derive_pda` of
`crates/litesvm-utils/src/test_helpers.rs`)

`derive_pda` delegates to `solana_program::pubkey::Pubkey::find_program_address`,
which is embedded here following the Solana SDK: `create_program_address`
rejects oversized seed sets, hashes seeds ‖ program id ‖ the PDA domain
marker, and rejects on-curve candidates with `InvalidSeeds`;
`try_find_program_address` searches bumps 255, 254, … (255 loop iterations),
treating any error other than `InvalidSeeds` as fatal (`break`);
`find_program_address` panics (`expect`) when the search is exhausted —
the panic is modelled as `Option.none`.  The ed25519 on-curve test is an
external cryptographic primitive, taken as the `Bool`-valued parameter
`onCurve`. -/

/-- Rust `PubkeyError` of the Solana SDK. -/
inductive PubkeyError where
  | MaxSeedLengthExceeded
  | InvalidSeeds
  | IllegalOwner
deriving DecidableEq

/-- Rust `MAX_SEED_LEN` of the Solana SDK. -/
def MAX_SEED_LEN : Nat := 32

/-- Rust `MAX_SEEDS` of the Solana SDK. -/
def MAX_SEEDS : Nat := 16

/-- Rust `PDA_MARKER`: the UTF-8 bytes of `"ProgramDerivedAddress"`. -/
def PDA_MARKER : List Nat := utf8 "ProgramDerivedAddress"

/-- Rust `Pubkey::create_program_address`. -/
def create_program_address (onCurve : List Nat → Bool)
    (seeds : List (List Nat)) (program_id : Pubkey) :
    Except PubkeyError Pubkey :=
  if seeds.length > MAX_SEEDS then Except.error PubkeyError.MaxSeedLengthExceeded
  else if seeds.any (fun seed => seed.length > MAX_SEED_LEN) then
    Except.error PubkeyError.MaxSeedLengthExceeded
  else
    let hash := sha256 (seeds.foldr (· ++ ·) [] ++ program_id ++ PDA_MARKER)
    if onCurve hash then Except.error PubkeyError.InvalidSeeds
    else Except.ok hash

/-- The bump search loop of `Pubkey::try_find_program_address`: the current
bump plus the remaining loop iterations (`for _ in 0..u8::MAX` runs 255
times, so bumps 255 down to 1 are tried). -/
def try_find_go (onCurve : List Nat → Bool) (seeds : List (List Nat))
    (program_id : Pubkey) : Nat → Nat → Option (Pubkey × Nat)
  | _, 0 => none
  | bump, fuel + 1 =>
      match create_program_address onCurve (seeds ++ [[bump]]) program_id with
      | Except.ok address => some (address, bump)
      | Except.error PubkeyError.InvalidSeeds =>
          try_find_go onCurve seeds program_id (bump - 1) fuel
      | Except.error _ => none

/-- Rust `Pubkey::try_find_program_address`. -/
def try_find_program_address (onCurve : List Nat → Bool)
    (seeds : List (List Nat)) (program_id : Pubkey) : Option (Pubkey × Nat) :=
  try_find_go onCurve seeds program_id 255 255

/-- Rust `Pubkey::find_program_address`: `none` models the
`expect("Unable to find a viable program address bump seed")` panic. -/
def find_program_address (onCurve : List Nat → Bool)
    (seeds : List (List Nat)) (program_id : Pubkey) : Option (Pubkey × Nat) :=
  try_find_program_address onCurve seeds program_id

/-- Rust `TestHelpers::derive_pda`. -/
def derive_pda (onCurve : List Nat → Bool) (seeds : List (List Nat))
    (program_id : Pubkey) : Option (Pubkey × Nat) :=
  find_program_address onCurve seeds program_id

/-! ## Helper lemmas -/

/-- The discriminator always has 8 bytes. -/
theorem calculate_anchor_discriminator_length (name : String) :
    (calculate_anchor_discriminator name).length = 8 := by
  simp [calculate_anchor_discriminator, List.length_take, sha256_length]

theorem data_append (a b : String) : (a ++ b).data = a.data ++ b.data := rfl

theorem leadsB_refl (l : List Char) : leadsB l l = true := by
  induction l with
  | nil => rfl
  | cons c t ih => simp [leadsB, ih]

theorem leadsB_append {p s : List Char} (t : List Char) (h : leadsB p s = true) :
    leadsB p (s ++ t) = true := by
  induction p generalizing s with
  | nil => rfl
  | cons c cs ih =>
    cases s with
    | nil => simp [leadsB] at h
    | cons d ds =>
      simp only [leadsB, Bool.and_eq_true] at h ⊢
      exact ⟨h.1, ih h.2⟩

theorem subStrB_nil (hay : List Char) : subStrB hay [] = true := by
  cases hay <;> simp [subStrB, leadsB]

theorem subStrB_append_r {s m : List Char} (t : List Char)
    (h : subStrB s m = true) : subStrB (s ++ t) m = true := by
  induction s with
  | nil =>
    simp only [subStrB, List.isEmpty_iff] at h
    subst h
    simpa using subStrB_nil t
  | cons c s' ih =>
    simp only [subStrB, Bool.or_eq_true] at h
    rcases h with h | h
    · simp only [List.cons_append, subStrB, Bool.or_eq_true]
      exact Or.inl (leadsB_append t h)
    · simp only [List.cons_append, subStrB, Bool.or_eq_true]
      exact Or.inr (ih h)

theorem subStrB_append_l {t m : List Char} (s : List Char)
    (h : subStrB t m = true) : subStrB (s ++ t) m = true := by
  induction s with
  | nil => simpa using h
  | cons c s' ih =>
    simp only [List.cons_append, subStrB, Bool.or_eq_true]
    exact Or.inr ih

theorem subStrB_refl (l : List Char) : subStrB l l = true := by
  cases l with
  | nil => rfl
  | cons c t => simp [subStrB, leadsB_refl]

/-- A string contains itself. -/
theorem strContains_refl (s : String) : strContains s s = true :=
  subStrB_refl s.data

/-- Containment survives appending on the right. -/
theorem strContains_append_left {a p : String} (b : String)
    (h : strContains a p = true) : strContains (a ++ b) p = true := by
  simpa [strContains, data_append] using subStrB_append_r b.data h

/-- Containment survives prepending on the left. -/
theorem strContains_append_right {b p : String} (a : String)
    (h : strContains b p = true) : strContains (a ++ b) p = true := by
  simpa [strContains, data_append] using subStrB_append_l a.data h

theorem any_eq_find_isSome {α : Type} (l : List α) (f : α → Bool) :
    l.any f = (l.find? f).isSome := by
  induction l with
  | nil => rfl
  | cons a t ih =>
    by_cases h : f a = true
    · simp [List.any_cons, List.find?_cons, h]
    · simp only [Bool.not_eq_true] at h
      simp [List.any_cons, List.find?_cons, h, ih]

theorem find_eq_some_first {α : Type} {l : List α} {f : α → Bool} {x : α}
    (h : l.find? f = some x) :
    f x = true ∧ ∃ pre post, l = pre ++ x :: post ∧ ∀ y ∈ pre, f y = false := by
  induction l with
  | nil => simp [List.find?] at h
  | cons a t ih =>
    by_cases ha : f a = true
    · rw [List.find?_cons_of_pos _ ha] at h
      cases h
      exact ⟨ha, [], t, rfl, by simp⟩
    · simp only [Bool.not_eq_true] at ha
      rw [List.find?_cons_of_neg _ (by simp [ha])] at h
      obtain ⟨hx, pre, post, hl, hpre⟩ := ih h
      refine ⟨hx, a :: pre, post, by simp [hl], ?_⟩
      intro y hy
      rcases List.mem_cons.mp hy with rfl | hy
      · exact ha
      · exact hpre y hy

theorem find_eq_none_all {α : Type} {l : List α} {f : α → Bool}
    (h : l.find? f = none) : ∀ x ∈ l, f x = false := by
  intro x hx
  have := List.find?_eq_none.mp h x hx
  simpa using this

/-- Shared characterization: `assert_error` falls through exactly when the
outcome is a failure whose text contains the expected substring. -/
theorem assert_error_ok_iff (r : TransactionResult) (p : String) :
    r.assert_error p = Except.ok () ↔
      ∃ e, r.error = some e ∧ strContains e p = true := by
  cases herr : r.error with
  | none => simp [TransactionResult.assert_error, herr]
  | some e =>
    by_cases hc : strContains e p = true
    · simp [TransactionResult.assert_error, herr, hc]
    · simp only [Bool.not_eq_true] at hc
      simp [TransactionResult.assert_error, herr, hc]

/-- When every bump candidate errors with `MaxSeedLengthExceeded`, the bump
search aborts at once, whatever the fuel. -/
theorem try_find_go_max_exceeded {onCurve : List Nat → Bool}
    {seeds : List (List Nat)} {pid : Pubkey}
    (h : ∀ bump, create_program_address onCurve (seeds ++ [[bump]]) pid =
      Except.error PubkeyError.MaxSeedLengthExceeded) :
    ∀ fuel bump, try_find_go onCurve seeds pid bump fuel = none := by
  intro fuel
  induction fuel with
  | zero => intro bump; rfl
  | succ n ih =>
    intro bump
    simp only [try_find_go, h bump]

/-- When no bump candidate ever succeeds, the bump search is exhausted,
whatever the fuel. -/
theorem try_find_go_no_ok {onCurve : List Nat → Bool}
    {seeds : List (List Nat)} {pid : Pubkey}
    (h : ∀ bump a, create_program_address onCurve (seeds ++ [[bump]]) pid ≠
      Except.ok a) :
    ∀ fuel bump, try_find_go onCurve seeds pid bump fuel = none := by
  intro fuel
  induction fuel with
  | zero => intro bump; rfl
  | succ n ih =>
    intro bump
    rcases hc : create_program_address onCurve (seeds ++ [[bump]]) pid with e | a
    · cases e with
      | MaxSeedLengthExceeded => simp [try_find_go, hc]
      | InvalidSeeds => simp [try_find_go, hc, ih]
      | IllegalOwner => simp [try_find_go, hc]
    · exact absurd hc (h bump a)

/-- An oversized seed forces `MaxSeedLengthExceeded` at every bump. -/
theorem create_program_address_long_seed {onCurve : List Nat → Bool}
    {seeds : List (List Nat)} {pid : Pubkey}
    (h : ∃ s ∈ seeds, s.length > MAX_SEED_LEN) :
    ∀ bump, create_program_address onCurve (seeds ++ [[bump]]) pid =
      Except.error PubkeyError.MaxSeedLengthExceeded := by
  intro bump
  unfold create_program_address
  by_cases hlen : (seeds ++ [[bump]]).length > MAX_SEEDS
  · rw [if_pos hlen]
  · obtain ⟨s, hs, hsl⟩ := h
    have hany : ((seeds ++ [[bump]]).any fun seed => decide (seed.length > MAX_SEED_LEN)) = true :=
      List.any_eq_true.mpr ⟨s, List.mem_append_left _ hs, by simpa using hsl⟩
    rw [if_neg hlen, if_pos hany]

/-- Too many seeds force `MaxSeedLengthExceeded` at every bump (the bump seed
is appended before the count check). -/
theorem create_program_address_many_seeds {onCurve : List Nat → Bool}
    {seeds : List (List Nat)} {pid : Pubkey}
    (h : seeds.length + 1 > MAX_SEEDS) :
    ∀ bump, create_program_address onCurve (seeds ++ [[bump]]) pid =
      Except.error PubkeyError.MaxSeedLengthExceeded := by
  intro bump
  have hlen : (seeds ++ [[bump]]).length > MAX_SEEDS := by
    simpa [List.length_append] using h
  unfold create_program_address
  rw [if_pos hlen]

/-- An always-on-curve test leaves no bump candidate successful. -/
theorem create_program_address_on_curve {onCurve : List Nat → Bool}
    {seeds : List (List Nat)} {pid : Pubkey}
    (h : ∀ bytes, onCurve bytes = true) :
    ∀ bump a, create_program_address onCurve (seeds ++ [[bump]]) pid ≠
      Except.ok a := by
  intro bump a
  unfold create_program_address
  by_cases h1 : (seeds ++ [[bump]]).length > MAX_SEEDS
  · rw [if_pos h1]; exact fun hcon => Except.noConfusion hcon
  · rw [if_neg h1]
    by_cases h2 : ((seeds ++ [[bump]]).any fun seed => decide (seed.length > MAX_SEED_LEN)) = true
    · rw [if_pos h2]; exact fun hcon => Except.noConfusion hcon
    · rw [if_neg h2, if_pos (h _)]
      exact fun hcon => Except.noConfusion hcon

/-! ## The claims -/

/-- C1: for every instruction built via `build_anchor_instruction` (any
program id, instruction name, account list, serializable arguments), the
first 8 bytes of the resulting data payload equal the discriminator computed
for the supplied instruction name, and the remaining bytes are the
serialization of the arguments. -/
theorem build_anchor_instruction_payload {α : Type}
    (ser : α → Except String (List Nat)) (program_id : Pubkey) (name : String)
    (accounts : List AccountMeta) (args : α) (bytes : List Nat)
    (hser : ser args = Except.ok bytes) :
    ∃ ix, build_anchor_instruction ser program_id name accounts args = Except.ok ix ∧
      ix.data.take 8 = calculate_anchor_discriminator name ∧
      ix.data.drop 8 = bytes := by
  refine ⟨{ program_id := program_id, accounts := accounts,
            data := calculate_anchor_discriminator name ++ bytes }, ?_, ?_, ?_⟩
  · simp [build_anchor_instruction, hser]
  · exact List.take_left' (calculate_anchor_discriminator_length name)
  · exact List.drop_left' (calculate_anchor_discriminator_length name)

/-- Witness for C1 at a concrete serializer and argument. -/
theorem build_anchor_instruction_payload_witness :
    ∃ ix, build_anchor_instruction (fun (_ : Unit) => Except.ok [1, 2, 3])
        [7] "make" [] () = Except.ok ix ∧
      ix.data.take 8 = calculate_anchor_discriminator "make" ∧
      ix.data.drop 8 = [1, 2, 3] :=
  build_anchor_instruction_payload (fun _ => Except.ok [1, 2, 3]) [7] "make" [] () [1, 2, 3] rfl

/-- C2: the discriminator is a pure function of namespace and name — it is
the first 8 bytes of the SHA-256 hash of the UTF-8 bytes of
`"<namespace>:<name>"` (the source fixes the namespace to `global`); it
always yields an 8-byte value, an empty name included, and the repository's
own reference vector for `make` is reproduced. -/
theorem calculate_anchor_discriminator_spec :
    (∀ name : String,
        calculate_anchor_discriminator name = discriminator_of_spec "global" name ∧
        (calculate_anchor_discriminator name).length = 8) ∧
    calculate_anchor_discriminator "make" = [138, 227, 232, 77, 223, 166, 96, 197] ∧
    calculate_anchor_discriminator "" = [193, 76, 24, 19, 16, 206, 80, 69] := by
  refine ⟨fun name => ⟨?_, calculate_anchor_discriminator_length name⟩, by decide, by decide⟩
  have hglobal : "global" ++ ":" = "global:" := by decide
  simp only [discriminator_of_spec, calculate_anchor_discriminator, hglobal]

/-- C6: a builder from `Program::accounts` on which `.args` was never invoked
fails at finalize with the missing-payload error; after `.args` with an
Anchor `InstructionData` payload (8-byte discriminator plus serialized
arguments) finalize returns the instruction carrying the builder's program
id, accounts, and data. -/
theorem instruction_builder_finalize (p : Program) (metas : List AccountMeta)
    (disc ser : List Nat) (hdisc : disc.length = 8) :
    (p.accounts metas).instruction =
      Except.error "No instruction data provided. Call .args() before .instruction()" ∧
    ((p.accounts metas).args (instructionDataBytes disc ser)).instruction =
      Except.ok { program_id := p.program_id, accounts := metas,
                  data := instructionDataBytes disc ser } := by
  constructor
  · rfl
  · cases disc with
    | nil => simp at hdisc
    | cons b bs =>
      simp [InstructionBuilder.instruction, Program.accounts,
        InstructionBuilder.args, instructionDataBytes]

/-- Witness for C6 at a concrete discriminator and payload. -/
theorem instruction_builder_finalize_witness :
    ((Program.mk [9]).accounts []).instruction =
      Except.error "No instruction data provided. Call .args() before .instruction()" ∧
    (((Program.mk [9]).accounts []).args
        (instructionDataBytes [1, 2, 3, 4, 5, 6, 7, 8] [42])).instruction =
      Except.ok { program_id := [9], accounts := [],
                  data := instructionDataBytes [1, 2, 3, 4, 5, 6, 7, 8] [42] } :=
  instruction_builder_finalize (Program.mk [9]) [] [1, 2, 3, 4, 5, 6, 7, 8] [42] (by decide)

/-- C8: the finalized instruction's account list is exactly the supplied
list, in order, every entry unchanged — both through
`build_anchor_instruction` and through `Program::accounts` followed by
`.args` and finalize. -/
theorem accounts_preserved {α : Type} (ser : α → Except String (List Nat))
    (program_id : Pubkey) (name : String) (metas : List AccountMeta) (args : α)
    (bytes : List Nat) (hser : ser args = Except.ok bytes)
    (p : Program) (payload : List Nat) (hpay : payload ≠ []) :
    (∃ ix, build_anchor_instruction ser program_id name metas args = Except.ok ix ∧
        ix.accounts = metas) ∧
    (∃ ix, ((p.accounts metas).args payload).instruction = Except.ok ix ∧
        ix.accounts = metas) := by
  constructor
  · exact ⟨{ program_id := program_id, accounts := metas,
             data := calculate_anchor_discriminator name ++ bytes },
      by simp [build_anchor_instruction, hser], rfl⟩
  · refine ⟨{ program_id := p.program_id, accounts := metas, data := payload }, ?_, rfl⟩
    simp [InstructionBuilder.instruction, Program.accounts, InstructionBuilder.args,
      List.isEmpty_iff, hpay]

/-- Witness for C8 at a concrete account list. -/
theorem accounts_preserved_witness :
    (∃ ix, build_anchor_instruction (fun (_ : Unit) => Except.ok [5])
        [1] "transfer" [AccountMeta.mk [2] true false] () = Except.ok ix ∧
        ix.accounts = [AccountMeta.mk [2] true false]) ∧
    (∃ ix, (((Program.mk [1]).accounts [AccountMeta.mk [2] true false]).args
        [9]).instruction = Except.ok ix ∧
        ix.accounts = [AccountMeta.mk [2] true false]) :=
  accounts_preserved (fun _ => Except.ok [5]) [1] "transfer"
    [AccountMeta.mk [2] true false] () [5] rfl (Program.mk [1]) [9] (by decide)

/-- C3 counterexample: with a single 33-byte seed (exceeding the 32-byte
maximum), `derive_pda` does not surface a typed `InvalidSeeds` error — its
return type `(Pubkey, u8)` has no error channel — but panics: the underlying
`find_program_address` search aborts and hits its `expect`, modelled as
`none`.  The on-curve test is irrelevant here (the length check fires first),
instantiated to the constantly-false predicate. -/
theorem derive_pda_counterexample :
    derive_pda (fun _ => false) [List.replicate 33 0] (List.replicate 32 0) = none ∧
    (List.replicate 33 0).length > MAX_SEED_LEN := by
  constructor
  · decide
  · decide

/-- C3 amended: `derive_pda` returns a bare `(Pubkey, u8)` with no typed
error channel; when any seed exceeds the 32-byte maximum, or the seed count
with the appended bump seed exceeds 16, or every candidate is on-curve so no
bump in the descending search (255 down to 1) works, the underlying
`find_program_address` panics — modelled as `none` — instead of reporting a
typed `InvalidSeeds` / `NoValidBump` error. -/
theorem derive_pda_amended (onCurve : List Nat → Bool)
    (seeds : List (List Nat)) (program_id : Pubkey) :
    ((∃ s ∈ seeds, s.length > MAX_SEED_LEN) →
      derive_pda onCurve seeds program_id = none) ∧
    (seeds.length + 1 > MAX_SEEDS →
      derive_pda onCurve seeds program_id = none) ∧
    ((∀ bytes, onCurve bytes = true) →
      derive_pda onCurve seeds program_id = none) := by
  refine ⟨fun h => ?_, fun h => ?_, fun h => ?_⟩
  · exact try_find_go_max_exceeded (create_program_address_long_seed h) 255 255
  · exact try_find_go_max_exceeded (create_program_address_many_seeds h) 255 255
  · exact try_find_go_no_ok (create_program_address_on_curve h) 255 255

/-- Witness for the amended C3: a concrete oversized seed, a concrete
17-seed set, and the constantly-on-curve test all drive `derive_pda` into
the modelled panic. -/
theorem derive_pda_amended_witness :
    derive_pda (fun _ => false) [List.replicate 33 1] [] = none ∧
    derive_pda (fun _ => false) (List.replicate 16 [0]) [] = none ∧
    derive_pda (fun _ => true) [[1]] [] = none :=
  ⟨(derive_pda_amended (fun _ => false) [List.replicate 33 1] []).1
      ⟨List.replicate 33 1, by simp, by decide⟩,
   (derive_pda_amended (fun _ => false) (List.replicate 16 [0]) []).2.1 (by decide),
   (derive_pda_amended (fun _ => true) [[1]] []).2.2 (fun _ => rfl)⟩

/-- C4: `assert_error(substring)` falls through exactly when the outcome was
a failure whose raw error text contains the substring; whenever it panics,
the panic message contains the expected substring and the full joined log
stream, and — when the outcome was a failure — the actual error text. -/
theorem assert_error_spec (r : TransactionResult) (expected : String) :
    (r.assert_error expected = Except.ok () ↔
      ∃ e, r.error = some e ∧ strContains e expected = true) ∧
    (∀ msg, r.assert_error expected = Except.error msg →
      strContains msg expected = true ∧
      strContains msg r.joinedLogs = true ∧
      ∀ e, r.error = some e → strContains msg e = true) := by
  refine ⟨assert_error_ok_iff r expected, ?_⟩
  intro msg hmsg
  cases herr : r.error with
  | none =>
    simp only [TransactionResult.assert_error, herr] at hmsg
    injection hmsg with hmsg'
    subst hmsg'
    refine ⟨?_, ?_, ?_⟩
    · exact strContains_append_left _ (strContains_append_left _
        (strContains_append_left _ (strContains_append_right _ (strContains_refl _))))
    · exact strContains_append_right _ (strContains_refl _)
    · intro e he
      exact Option.noConfusion he
  | some e =>
    simp only [TransactionResult.assert_error, herr] at hmsg
    by_cases hc : strContains e expected = true
    · rw [if_pos hc] at hmsg
      exact Except.noConfusion hmsg
    · rw [if_neg hc] at hmsg
      injection hmsg with hmsg'
      subst hmsg'
      refine ⟨?_, ?_, ?_⟩
      · exact strContains_append_left _ (strContains_append_left _
          (strContains_append_left _ (strContains_append_left _
            (strContains_append_right _ (strContains_refl _)))))
      · exact strContains_append_right _ (strContains_refl _)
      · intro e' he'
        injection he' with he''
        subst he''
        exact strContains_append_left _ (strContains_append_left _
          (strContains_append_right _ (strContains_refl _)))

/-- Witness for C4: a concrete failed outcome whose error text contains the
expected substring falls through the assertion. -/
theorem assert_error_spec_witness :
    (TransactionResult.mk (TransactionMetadata.mk ["alpha"] 0) none
        (some "boom")).assert_error "oo" = Except.ok () :=
  (assert_error_spec (TransactionResult.mk (TransactionMetadata.mk ["alpha"] 0)
      none (some "boom")) "oo").1.mpr ⟨"boom", rfl, by decide⟩

/-- C5: `assert_error_code(c)` is `assert_error` applied to the fixed
pattern embedding `c` in lowercase hexadecimal; in particular,
`assert_error_code(6000)` falls through exactly when the outcome is a
failure whose raw error text contains `custom program error: 0x1770`, and
panics otherwise. -/
theorem assert_error_code_spec (r : TransactionResult) (error_code : Nat) :
    r.assert_error_code error_code =
      r.assert_error ("custom program error: 0x" ++ hexLower error_code) ∧
    (r.assert_error_code 6000 = Except.ok () ↔
      ∃ e, r.error = some e ∧
        strContains e "custom program error: 0x1770" = true) ∧
    (¬(∃ e, r.error = some e ∧
        strContains e "custom program error: 0x1770" = true) →
      ∃ msg, r.assert_error_code 6000 = Except.error msg) := by
  have hpat : "custom program error: 0x" ++ hexLower 6000 =
      "custom program error: 0x1770" := by decide
  refine ⟨rfl, ?_, ?_⟩
  · rw [TransactionResult.assert_error_code, hpat]
    exact assert_error_ok_iff r "custom program error: 0x1770"
  · intro hnot
    rcases hres : r.assert_error_code 6000 with msg | u
    · exact ⟨msg, rfl⟩
    · cases u
      have hok : r.assert_error ("custom program error: 0x" ++ hexLower 6000) =
          Except.ok () := hres
      rw [hpat] at hok
      exact absurd ((assert_error_ok_iff r "custom program error: 0x1770").mp hok) hnot

/-- C7: `find_log` returns the first log line containing the pattern, or
`None` when no line contains it, and `has_log` is exactly
`find_log(...).is_some()`. -/
theorem find_log_spec (r : TransactionResult) (pat : String) :
    r.has_log pat = (r.find_log pat).isSome ∧
    (∀ l, r.find_log pat = some l →
      strContains l pat = true ∧
      ∃ pre post, r.logs = pre ++ l :: post ∧
        ∀ x ∈ pre, strContains x pat = false) ∧
    (r.find_log pat = none → ∀ l ∈ r.logs, strContains l pat = false) := by
  refine ⟨?_, ?_, ?_⟩
  · exact any_eq_find_isSome r.inner.logs _
  · intro l hl
    exact find_eq_some_first hl
  · intro hn
    exact find_eq_none_all hn

/-- Witness for C7 at a concrete log stream. -/
theorem find_log_spec_witness :
    strContains "cd" "cd" = true ∧
    ∃ pre post,
      (TransactionResult.mk (TransactionMetadata.mk ["ab", "cd"] 0) none
          none).logs = pre ++ "cd" :: post ∧
      ∀ x ∈ pre, strContains x "cd" = false :=
  (find_log_spec (TransactionResult.mk (TransactionMetadata.mk ["ab", "cd"] 0)
      none none) "cd").2.1 "cd" (by decide)

/-- Witness for C5: a successful outcome makes `assert_error_code(6000)`
panic. -/
theorem assert_error_code_spec_witness :
    ∃ msg, (TransactionResult.mk (TransactionMetadata.mk [] 0) none
        none).assert_error_code 6000 = Except.error msg :=
  (assert_error_code_spec (TransactionResult.mk (TransactionMetadata.mk [] 0)
      none none) 6000).2.2 (by simp)

/-- C9: both senders designate the first signer of a non-empty list as the
transaction's fee payer; an empty list yields the typed `BuildError` with the
oracle state untouched and no transaction built or submitted. -/
theorem send_fee_payer {σ ε : Type}
    (sendTx : σ → Transaction → σ × Except (FailedTransactionMetadata ε) TransactionMetadata)
    (fmtDebug : ε → String) (latestBlockhash : σ → Nat) (svm : σ)
    (ix : Instruction) (ixs : List Instruction) (signers : List Keypair) :
    (signers = [] →
      send_instruction sendTx fmtDebug latestBlockhash svm ix signers =
        (svm, Except.error (TransactionError.BuildError "No signers provided")) ∧
      send_instructions sendTx fmtDebug latestBlockhash svm ixs signers =
        (svm, Except.error (TransactionError.BuildError "No signers provided"))) ∧
    (∀ s0 rest, signers = s0 :: rest →
      send_instruction sendTx fmtDebug latestBlockhash svm ix signers =
        send_transaction_result sendTx fmtDebug svm
          (Transaction.new_signed_with_payer [ix] (some s0.pubkey) signers
            (latestBlockhash svm)) ∧
      (Transaction.new_signed_with_payer [ix] (some s0.pubkey) signers
          (latestBlockhash svm)).payer = some s0.pubkey ∧
      send_instructions sendTx fmtDebug latestBlockhash svm ixs signers =
        send_transaction_result sendTx fmtDebug svm
          (Transaction.new_signed_with_payer ixs (some s0.pubkey) signers
            (latestBlockhash svm)) ∧
      (Transaction.new_signed_with_payer ixs (some s0.pubkey) signers
          (latestBlockhash svm)).payer = some s0.pubkey) := by
  constructor
  · intro h
    subst h
    exact ⟨rfl, rfl⟩
  · intro s0 rest h
    subst h
    exact ⟨rfl, rfl, rfl, rfl⟩

/-- A concrete oracle for witnesses: succeeds with empty metadata, state
untouched. -/
def demoSendTx : Nat → Transaction →
    Nat × Except (FailedTransactionMetadata Unit) TransactionMetadata :=
  fun s _ => (s, Except.ok (TransactionMetadata.mk [] 0))

/-- A concrete oracle for witnesses: fails, incrementing the state and
reporting one log line and 7 compute units. -/
def demoSendTxFail : Nat → Transaction →
    Nat × Except (FailedTransactionMetadata Unit) TransactionMetadata :=
  fun s _ => (s + 1, Except.error ⟨(), TransactionMetadata.mk ["log"] 7⟩)

/-- A concrete debug renderer for the demo oracle error. -/
def demoFmt : Unit → String := fun _ => "TransactionError demo"

/-- A concrete blockhash query for the demo oracle. -/
def demoHash : Nat → Nat := fun _ => 0

/-- A concrete transaction for witnesses. -/
def demoTx : Transaction := Transaction.new_signed_with_payer [] none [] 0

/-- Witness for C9, at the demo oracle: one concrete signer, and the empty
signer list. -/
theorem send_fee_payer_witness :
    (send_instruction demoSendTx demoFmt demoHash 0 (Instruction.mk [] [] [])
        [Keypair.mk [3]] =
      send_transaction_result demoSendTx demoFmt 0
        (Transaction.new_signed_with_payer [Instruction.mk [] [] []]
          (some (Keypair.mk [3]).pubkey) [Keypair.mk [3]] (demoHash 0)) ∧
      (Transaction.new_signed_with_payer [Instruction.mk [] [] []]
          (some (Keypair.mk [3]).pubkey) [Keypair.mk [3]] (demoHash 0)).payer =
        some (Keypair.mk [3]).pubkey ∧
      send_instructions demoSendTx demoFmt demoHash 0 []
          [Keypair.mk [3]] =
        send_transaction_result demoSendTx demoFmt 0
          (Transaction.new_signed_with_payer [] (some (Keypair.mk [3]).pubkey)
            [Keypair.mk [3]] (demoHash 0)) ∧
      (Transaction.new_signed_with_payer [] (some (Keypair.mk [3]).pubkey)
          [Keypair.mk [3]] (demoHash 0)).payer = some (Keypair.mk [3]).pubkey) ∧
    (send_instruction demoSendTx demoFmt demoHash 0 (Instruction.mk [] [] []) [] =
      (0, Except.error (TransactionError.BuildError "No signers provided")) ∧
     send_instructions demoSendTx demoFmt demoHash 0 [] [] =
      (0, Except.error (TransactionError.BuildError "No signers provided"))) :=
  ⟨(send_fee_payer demoSendTx demoFmt demoHash 0 (Instruction.mk [] [] []) []
      [Keypair.mk [3]]).2 (Keypair.mk [3]) [] rfl,
   (send_fee_payer demoSendTx demoFmt demoHash 0 (Instruction.mk [] [] []) []
      []).1 rfl⟩

/-- C10: `send_transaction_result` never returns `Err` (in particular the
`ExecutionFailed` variant is never produced): oracle success becomes an `Ok`
result with no error field, oracle failure becomes an `Ok` result whose
error field holds the rendered oracle error while the failure's logs and
compute-unit count are preserved. -/
theorem send_transaction_result_total {σ ε : Type}
    (sendTx : σ → Transaction → σ × Except (FailedTransactionMetadata ε) TransactionMetadata)
    (fmtDebug : ε → String) (svm : σ) (tx : Transaction) :
    (∃ svm2 r, send_transaction_result sendTx fmtDebug svm tx =
        (svm2, Except.ok r)) ∧
    (∀ svm2 meta, sendTx svm tx = (svm2, Except.ok meta) →
      send_transaction_result sendTx fmtDebug svm tx =
        (svm2, Except.ok (TransactionResult.new meta none)) ∧
      (TransactionResult.new meta none).error = none ∧
      (TransactionResult.new meta none).is_success = true ∧
      (TransactionResult.new meta none).logs = meta.logs ∧
      (TransactionResult.new meta none).compute_units =
        meta.compute_units_consumed) ∧
    (∀ svm2 failed, sendTx svm tx = (svm2, Except.error failed) →
      send_transaction_result sendTx fmtDebug svm tx =
        (svm2, Except.ok (TransactionResult.new_failed (fmtDebug failed.err)
          failed.meta none)) ∧
      (TransactionResult.new_failed (fmtDebug failed.err) failed.meta none).error =
        some (fmtDebug failed.err) ∧
      (TransactionResult.new_failed (fmtDebug failed.err) failed.meta
          none).is_success = false ∧
      (TransactionResult.new_failed (fmtDebug failed.err) failed.meta none).logs =
        failed.meta.logs ∧
      (TransactionResult.new_failed (fmtDebug failed.err) failed.meta
          none).compute_units = failed.meta.compute_units_consumed) := by
  rcases h : sendTx svm tx with ⟨svm2, res⟩
  cases res with
  | ok meta =>
    refine ⟨⟨svm2, TransactionResult.new meta none,
        by simp [send_transaction_result, h]⟩, ?_, ?_⟩
    · intro s2 m hm
      injection hm with ha hb
      subst ha
      injection hb with hb'
      subst hb'
      exact ⟨by simp [send_transaction_result, h], rfl, rfl, rfl, rfl⟩
    · intro s2 f hf
      injection hf with ha hb
      exact Except.noConfusion hb
  | error failed =>
    refine ⟨⟨svm2, TransactionResult.new_failed (fmtDebug failed.err)
        failed.meta none, by simp [send_transaction_result, h]⟩, ?_, ?_⟩
    · intro s2 m hm
      injection hm with ha hb
      exact Except.noConfusion hb
    · intro s2 f hf
      injection hf with ha hb
      subst ha
      injection hb with hb'
      subst hb'
      exact ⟨by simp [send_transaction_result, h], rfl, rfl, rfl, rfl⟩

/-- Witness for C10 at the failing demo oracle. -/
theorem send_transaction_result_total_witness :
    send_transaction_result demoSendTxFail demoFmt 0 demoTx =
      (1, Except.ok (TransactionResult.new_failed (demoFmt ())
        (TransactionMetadata.mk ["log"] 7) none)) ∧
    (TransactionResult.new_failed (demoFmt ()) (TransactionMetadata.mk ["log"] 7)
        none).error = some (demoFmt ()) ∧
    (TransactionResult.new_failed (demoFmt ()) (TransactionMetadata.mk ["log"] 7)
        none).is_success = false ∧
    (TransactionResult.new_failed (demoFmt ()) (TransactionMetadata.mk ["log"] 7)
        none).logs = ["log"] ∧
    (TransactionResult.new_failed (demoFmt ()) (TransactionMetadata.mk ["log"] 7)
        none).compute_units = 7 :=
  (send_transaction_result_total demoSendTxFail demoFmt 0 demoTx).2.2 1
    ⟨(), TransactionMetadata.mk ["log"] 7⟩ rfl

end AnchorLitesvm
